import Mathlib

/-!
Verification of the visual-regression test harness in
`avenger-vega-renderer/test/test_baselines.py`.

The harness renders a Vega spec through the `avenger` (candidate) and `svg`
(reference) backends inside a browser page, screenshots each output element,
guards against blank (all-white) frames, diffs the two raster images with the
`pixelmatch` library, and gates pass/fail on a per-case tolerance, writing
failure artifacts on tolerance violations.

Raster images are embedded as a width, a height, and a pixel-access function
(mirroring PIL's `img.load()` access, which yields channel tuples whose arity
depends on the image mode: 4 for RGBA, 3 for RGB).  Floating-point scores and
tolerances are modelled as exact rationals.
-/

namespace Baselines

/-- A pixel as returned by PIL pixel access: a tuple of channel values.
Modelled as a list so that RGB (3 channels) and RGBA (4 channels) pixels can
both be represented, as in the source where `pixels[x, y]` is a tuple whose
arity depends on the image mode. -/
abbrev Pixel := List ℕ

/-- The fully-opaque white RGBA pixel `(255, 255, 255, 255)` that the
blank-frame guard in `spec_to_image` compares against. -/
def whitePixel : Pixel := [255, 255, 255, 255]

/-- A raster image: width, height and pixel buffer, accessed by coordinate as
in PIL's `img.load()`. -/
structure Image where
  width : ℕ
  height : ℕ
  px : ℕ → ℕ → Pixel

/-- `Image.new "RGBA" (w, h)`: a fresh RGBA image, all pixels transparent
black, as created for the diff image in `compare`. -/
def Image.new (w h : ℕ) : Image :=
  ⟨w, h, fun _ _ => [0, 0, 0, 0]⟩

/-- All pixels of the image are fully-opaque white: the condition under which
the pixel-scan loop of `spec_to_image` falls through to `pytest.fail`. -/
def allWhite (img : Image) : Prop :=
  ∀ x < img.width, ∀ y < img.height, img.px x y = whitePixel

instance (img : Image) : Decidable (allWhite img) := by
  unfold allWhite
  infer_instance

/-- The ways a test case can fail before producing a gate decision:
`blankImage` is `pytest.fail("Retrieved blank image")` in `spec_to_image`;
`pageErrors` is `pytest.fail(avenger_errs)` in `compare`; `sizeMismatch` is
the `ValueError` the pixelmatch library raises on differing image sizes. -/
inductive Failure where
  | blankImage
  | pageErrors (errs : List String)
  | sizeMismatch
deriving DecidableEq

/-- `spec_to_image` (test_baselines.py:239-262), after the screenshot has been
decoded into `img`: scan every pixel; if some pixel differs from fully-opaque
white, return the image, otherwise `pytest.fail("Retrieved blank image")`.
The navigation/embedding steps are external effects; the function is embedded
as acting on the decoded screenshot. -/
def spec_to_image (img : Image) : Except Failure Image :=
  if allWhite img then .error .blankImage else .ok img

/-- Modelled from the spec: the per-pixel mismatch test of the external
`pixelmatch` library (a dependency, not part of this repository's sources).
Per the spec, two pixels are mismatched when some per-channel difference
exceeds the channel threshold (normalised to the 0-255 channel range). -/
def pixelsMismatch (p q : Pixel) (threshold : ℚ) : Bool :=
  (List.range (max p.length q.length)).any fun i =>
    threshold * 255 < (((p.getD i 0 : ℤ) - (q.getD i 0 : ℤ)).natAbs : ℚ)

/-- Number of mismatched pixel positions between two images of equal size. -/
def mismatchCount (a b : Image) (threshold : ℚ) : ℕ :=
  ((List.range a.width).map fun x =>
    ((List.range a.height).filter fun y =>
      pixelsMismatch (a.px x y) (b.px x y) threshold).length).sum

/-- Modelled from the spec: the external `pixelmatch` library's entry point
(not part of this repository's sources).  It requires the two input images to
have equal width and equal height; on mismatched dimensions it raises a
precondition error and produces no count.  The pixels written into the diff
image are not modelled: no claim depends on them. -/
def pixelmatch (a b : Image) (_output : Image) (threshold : ℚ) :
    Except Failure ℕ :=
  if a.width = b.width ∧ a.height = b.height then
    .ok (mismatchCount a b threshold)
  else
    .error .sizeMismatch

/-- The result dataclass of `compare` (test_baselines.py:210-216). -/
structure ComparisonResult where
  svg_img : Image
  avenger_img : Image
  diff_img : Image
  mismatch : ℕ
  score : ℚ

/-- The capture environment of one `compare` call: the raw screenshots the two
`spec_to_image` calls decode, and the asynchronous `pageerror` events the page
reports during each capture window.  The `page.on("pageerror", ...)` listener
appends every such event to `avenger_errs` for the lifetime of the page. -/
structure CaptureEnv where
  avengerRaw : Image
  svgRaw : Image
  errsDuringAvenger : List String
  errsDuringSvg : List String

/-- `compare` (test_baselines.py:219-236): capture the avenger image, fail on
page errors collected so far, capture the svg image, diff with pixelmatch at
threshold 0.2, and return the result with
`score = mismatch / (svg_img.width * svg_img.height)`.
Note the error list is only inspected once, directly after the avenger
capture: events appended during the svg capture are never checked. -/
def compare (env : CaptureEnv) : Except Failure ComparisonResult :=
  match spec_to_image env.avengerRaw with
  | .error f => .error f
  | .ok avenger_img =>
    if env.errsDuringAvenger = [] then
      match spec_to_image env.svgRaw with
      | .error f => .error f
      | .ok svg_img =>
        match pixelmatch svg_img avenger_img
            (Image.new svg_img.width svg_img.height) (2/10) with
        | .error f => .error f
        | .ok mismatch =>
          .ok ⟨svg_img, avenger_img, Image.new svg_img.width svg_img.height,
            mismatch,
            (mismatch : ℚ) / ((svg_img.width : ℚ) * (svg_img.height : ℚ))⟩
    else
      .error (.pageErrors env.errsDuringAvenger)

/-- The content of `metrics.json` written on a tolerance violation
(test_baselines.py:197-206). -/
structure Metrics where
  required_score : ℚ
  score : ℚ
  mismatch : ℕ
deriving DecidableEq

/-- The filenames written into the per-case artifact directory on a tolerance
violation (test_baselines.py:194-197). -/
def artifactFiles : List String :=
  ["svg.png", "avenger.png", "diff.png", "metrics.json"]

/-- Outcome of one parametrized case of `test_image_baselines`:
`pass` (assert not reached, nothing written), `failTolerance` (artifact
directory `failures/<category>/<name>` created, images and metrics written,
then the assert fails), or `failCapture` (a `pytest.fail` raised inside
`compare`, before the gate). -/
inductive Outcome where
  | pass
  | failTolerance (dir : String × String) (files : List String) (metrics : Metrics)
  | failCapture (f : Failure)
deriving DecidableEq

/-- The artifact directories `<failuresRoot>/<category>/<name>` a case
outcome creates. -/
def Outcome.dirsCreated : Outcome → List (String × String)
  | .failTolerance d _ _ => [d]
  | _ => []

/-- The files a case outcome writes into its artifact directory. -/
def Outcome.filesWritten : Outcome → List String
  | .failTolerance _ fs _ => fs
  | _ => []

/-- Whether the case passed. -/
def Outcome.passed : Outcome → Bool
  | .pass => true
  | _ => false

/-- Whether the case failed by a `pytest.fail` raised during capture, before
any gate decision. -/
def Outcome.isCaptureFailure : Outcome → Bool
  | .failCapture _ => true
  | _ => false

/-- The per-case body of `test_image_baselines` (test_baselines.py:173-207)
from the point where `compare` runs: on `score > tolerance`, create
`failures/<category>/<spec_name>`, save `svg.png`, `avenger.png`, `diff.png`,
write `metrics.json` with the required score, score and mismatch, and fail the
assert; otherwise pass.  A `pytest.fail` inside `compare` propagates before
the gate. -/
def test_image_baselines (env : CaptureEnv) (category spec_name : String)
    (tolerance : ℚ) : Outcome :=
  match compare env with
  | .error f => .failCapture f
  | .ok res =>
    if res.score > tolerance then
      .failTolerance (category, spec_name) artifactFiles
        ⟨tolerance, res.score, res.mismatch⟩
    else
      .pass
/-- The static, parametrized case matrix of `test_image_baselines`
(test_baselines.py:53-172): `(category, spec_name, tolerance)` triples,
transcribed in declaration order, duplicates included. -/
def caseMatrix : List (String × String × ℚ) := [
  ("rect", "stacked_bar", 0.0001),
  ("rect", "stacked_bar_stroke", 0.0001),
  ("rect", "stacked_bar_rounded", 0.0001),
  ("rect", "stacked_bar_rounded_stroke", 0.0001),
  ("rect", "stacked_bar_rounded_stroke_opacity", 0.0001),
  ("rect", "heatmap", 0.0001),
  ("symbol", "binned_scatter_diamonds", 0.0001),
  ("symbol", "binned_scatter_square", 0.0001),
  ("symbol", "binned_scatter_triangle-down", 0.0001),
  ("symbol", "binned_scatter_triangle-up", 0.0001),
  ("symbol", "binned_scatter_triangle-left", 0.0001),
  ("symbol", "binned_scatter_triangle-right", 0.0001),
  ("symbol", "binned_scatter_triangle", 0.0001),
  ("symbol", "binned_scatter_wedge", 0.0003),
  ("symbol", "binned_scatter_arrow", 0.0001),
  ("symbol", "binned_scatter_cross", 0.0001),
  ("symbol", "binned_scatter_circle", 0.0001),
  ("symbol", "binned_scatter_path", 0.0001),
  ("symbol", "binned_scatter_path_star", 0.0001),
  ("symbol", "binned_scatter_path_star", 0.0001),
  ("symbol", "binned_scatter_cross_stroke", 0.0001),
  ("symbol", "binned_scatter_circle_stroke", 0.0001),
  ("symbol", "binned_scatter_circle_stroke_no_fill", 0.0001),
  ("symbol", "binned_scatter_path_star_stroke_no_fill", 0.0001),
  ("symbol", "scatter_transparent_stroke", 0.0001),
  ("symbol", "scatter_transparent_stroke_star", 0.0001),
  ("symbol", "scatter_transparent_stroke_star", 0.0001),
  ("symbol", "wind_vector", 0.0001),
  ("symbol", "wedge_angle", 0.0001),
  ("symbol", "wedge_stroke_angle", 0.0001),
  ("symbol", "zindex_circles", 0.0001),
  ("symbol", "mixed_symbols", 0.0001),
  ("rule", "wide_transparent_caps", 0.003),
  ("rule", "dashed_rules", 0.0004),
  ("rule", "wide_rule_axes", 0.0001),
  ("text", "text_alignment", 0.016),
  ("text", "text_rotation", 0.016),
  ("text", "letter_scatter", 0.027),
  ("text", "lasagna_plot", 0.04),
  ("text", "arc_radial", 0.005),
  ("text", "emoji", 0.05),
  ("arc", "single_arc_no_inner", 0.0001),
  ("arc", "single_arc_with_inner_radius", 0.0001),
  ("arc", "single_arc_with_inner_radius_wrap", 0.0001),
  ("arc", "single_arc_with_inner_radius_wrap_stroke", 0.0001),
  ("arc", "arcs_with_variable_outer_radius", 0.0001),
  ("arc", "arcs_with_variable_outer_radius_stroke", 0.0001),
  ("arc", "arc_with_stroke", 0.0001),
  ("path", "single_path_no_stroke", 0.0),
  ("path", "multi_path_no_stroke", 0.0),
  ("path", "single_path_with_stroke", 0.0),
  ("path", "single_path_with_stroke_no_fill", 0.0),
  ("path", "multi_path_with_stroke", 0.0),
  ("path", "multi_path_with_stroke_no_fill", 0.0),
  ("shape", "us-counties", 0.0001),
  ("shape", "us-map", 0.0001),
  ("shape", "world-natural-earth-projection", 0.0001),
  ("shape", "london_tubes", 0.0001),
  ("line", "simple_line_round_cap", 0.0),
  ("line", "simple_line_butt_cap_miter_join", 0.0),
  ("line", "simple_line_square_cap_bevel_join", 0.0002),
  ("line", "connected_scatter", 0.0001),
  ("line", "lines_with_open_symbols", 0.0),
  ("line", "stocks", 0.0001),
  ("line", "simple_dashed", 0.0),
  ("line", "line_dashed_round_undefined", 0.0),
  ("line", "line_dashed_square_undefined", 0.02),
  ("line", "line_dashed_butt_undefined", 0.0),
  ("line", "stocks-legend", 0.006),
  ("line", "stocks_dashed", 0.006),
  ("area", "100_percent_stacked_area", 0.0),
  ("area", "simple_unemployment", 0.0),
  ("area", "simple_unemployment_stroke", 0.0),
  ("area", "stacked_area", 0.0001),
  ("area", "streamgraph_area", 0.0002),
  ("area", "with_undefined", 0.0),
  ("area", "with_undefined_horizontal", 0.0),
  ("trail", "trail_stocks", 0.0),
  ("trail", "trail_stocks_opacity", 0.0),
  ("image", "logos", 0.0002),
  ("image", "logos_sized_aspect_false", 0.0002),
  ("image", "logos_sized_aspect_false_align_baseline", 0.0002),
  ("image", "logos_sized_aspect_true_align_baseline", 0.0002),
  ("image", "smooth_true", 0.0002),
  ("image", "many_images", 0.04),
  ("image", "large_images", 0.0002),
  ("gradients", "symbol_cross_gradient", 0.0001),
  ("gradients", "symbol_circles_gradient_stroke", 0.0001),
  ("gradients", "symbol_radial_gradient", 0.0002),
  ("gradients", "rules_with_gradients", 0.003),
  ("gradients", "heatmap_with_colorbar", 0.0008),
  ("gradients", "diagonal_gradient_bars_rounded", 0.0001),
  ("gradients", "default_gradient_bars_rounded_stroke", 0.0001),
  ("gradients", "residuals_colorscale", 0.001),
  ("gradients", "stroke_rect_gradient", 0.0001),
  ("gradients", "arc_gradient", 0.0001),
  ("gradients", "path_with_stroke_gradients", 0.0),
  ("clip", "text_clip", 0.006),
  ("clip", "text_clip_rounded", 0.006),
  ("clip", "bar_rounded2", 0.0),
  ("clip", "clip_mixed_marks", 0.0),
  ("clip", "clip_rounded", 0.0)]

/-- The `(category, spec_name)` address of each case, in matrix order. -/
def casePairs : List (String × String) :=
  caseMatrix.map fun c => (c.1, c.2.1)

/-- Targets a termination signal can be sent to at teardown. -/
inductive SignalTarget where
  | process
  | processGroup
deriving DecidableEq

/-- The teardown of the session-scoped `page_url` fixture
(test_baselines.py:28-42): after the yield, it runs `p.terminate()`, which
sends SIGTERM to the dev-server process itself.  The `Popen` call sets no new
session/process group and no group-wide signal is sent.  Session-fixture
teardown runs exactly once per session, whatever the case outcomes were. -/
def page_url_teardown (_outcomes : List Outcome) : List SignalTarget :=
  [SignalTarget.process]

/-- A 1x1 black RGBA image: a minimal non-blank capture. -/
def blackImg : Image := ⟨1, 1, fun _ _ => [0, 0, 0, 255]⟩

/-- A 2x2 all-white RGBA image: a blank frame. -/
def whiteImg : Image := ⟨2, 2, fun _ _ => [255, 255, 255, 255]⟩

/-- A 1x1 all-white RGB (3-channel) image: white but not a 4-tuple pixel. -/
def rgbWhiteImg : Image := ⟨1, 1, fun _ _ => [255, 255, 255]⟩

/-- A 1x1 white-but-transparent RGBA image: differs from black in every
colour channel, and is not fully-opaque white. -/
def clearWhiteImg : Image := ⟨1, 1, fun _ _ => [255, 255, 255, 0]⟩

/-- A 200x200 black image, as in the spec's dimension-mismatch scenario. -/
def img200 : Image := ⟨200, 200, fun _ _ => [0, 0, 0, 255]⟩

/-- A 100x100 black image, as in the spec's dimension-mismatch scenario. -/
def img100 : Image := ⟨100, 100, fun _ _ => [0, 0, 0, 255]⟩

/-- A clean capture environment: identical non-blank screenshots, no page
errors. -/
def envOk : CaptureEnv := ⟨blackImg, blackImg, [], []⟩

/-- A capture environment whose screenshots differ in every pixel. -/
def envDiff : CaptureEnv := ⟨clearWhiteImg, blackImg, [], []⟩

/-- A capture environment whose avenger screenshot is blank. -/
def envBlank : CaptureEnv := ⟨whiteImg, blackImg, [], []⟩

/-- A capture environment where a page error surfaces during the svg
(reference) capture. -/
def envSvgErr : CaptureEnv := ⟨blackImg, blackImg, [], ["ReferenceError: x"]⟩

/-- A capture environment where a page error surfaces during the avenger
(candidate) capture. -/
def envAvErr : CaptureEnv := ⟨blackImg, blackImg, ["TypeError: y"], []⟩

/-- Inversion of a successful `pixelmatch` call: the images had equal
dimensions and the count is the mismatch count. -/
theorem pixelmatch_ok_inv (a b out : Image) (t : ℚ) (n : ℕ)
    (h : pixelmatch a b out t = .ok n) :
    a.width = b.width ∧ a.height = b.height ∧ n = mismatchCount a b t := by
  unfold pixelmatch at h
  split at h
  next hd =>
    cases h
    exact ⟨hd.1, hd.2, rfl⟩
  · exact absurd h (by simp)

/-- Inversion of a successful `compare` call: both captures succeeded, no page
error was pending after the avenger capture, the two images have equal
dimensions, the mismatch count is the pixelmatch count, and the score is the
mismatch count divided by the pixel count of the svg (reference) image. -/
theorem compare_ok_inv (env : CaptureEnv) (res : ComparisonResult)
    (h : Baselines.compare env = .ok res) :
    spec_to_image env.avengerRaw = .ok res.avenger_img ∧
    env.errsDuringAvenger = [] ∧
    spec_to_image env.svgRaw = .ok res.svg_img ∧
    res.svg_img.width = res.avenger_img.width ∧
    res.svg_img.height = res.avenger_img.height ∧
    res.mismatch = mismatchCount res.svg_img res.avenger_img (2/10) ∧
    res.score = (res.mismatch : ℚ) /
      ((res.svg_img.width : ℚ) * (res.svg_img.height : ℚ)) := by
  unfold compare at h
  split at h
  · exact absurd h (by simp)
  next avenger_img hA =>
    split at h
    next hE =>
      split at h
      · exact absurd h (by simp)
      next svg_img hS =>
        split at h
        · exact absurd h (by simp)
        next m hM =>
          cases h
          obtain ⟨hw, hh, hm⟩ := pixelmatch_ok_inv _ _ _ _ _ hM
          exact ⟨hA, hE, hS, hw, hh, hm, rfl⟩
    · exact absurd h (by simp)

/-- The `ComparisonResult` a clean run on `envOk` produces. -/
def resOk : ComparisonResult :=
  ⟨blackImg, blackImg, Image.new 1 1, mismatchCount blackImg blackImg (2/10),
    ((mismatchCount blackImg blackImg (2/10) : ℚ)) /
      ((blackImg.width : ℚ) * (blackImg.height : ℚ))⟩

/-- C1: for every pair of captured raster images compared by `compare`, the
returned score equals the mismatch count divided by width times height of the
reference (svg) image exactly, and the score is zero iff the mismatch count is
zero, given positive width and height. -/
theorem C1_score_formula (env : CaptureEnv) (res : ComparisonResult)
    (h : Baselines.compare env = .ok res)
    (hw : 0 < res.svg_img.width) (hh : 0 < res.svg_img.height) :
    res.score = (res.mismatch : ℚ) /
      ((res.svg_img.width : ℚ) * (res.svg_img.height : ℚ)) ∧
    (res.score = 0 ↔ res.mismatch = 0) := by
  obtain ⟨-, -, -, -, -, -, hscore⟩ := compare_ok_inv env res h
  refine ⟨hscore, ?_⟩
  have hne : ((res.svg_img.width : ℚ) * (res.svg_img.height : ℚ)) ≠ 0 :=
    mul_ne_zero (Nat.cast_ne_zero.mpr hw.ne') (Nat.cast_ne_zero.mpr hh.ne')
  rw [hscore, div_eq_zero_iff]
  constructor
  · rintro (h0 | h0)
    · exact_mod_cast h0
    · exact absurd h0 hne
  · intro h0
    exact Or.inl (by exact_mod_cast h0)

/-- C1 witness: the clean 1x1 run. -/
theorem C1_score_formula_witness :
    resOk.score = (resOk.mismatch : ℚ) /
      ((resOk.svg_img.width : ℚ) * (resOk.svg_img.height : ℚ)) ∧
    (resOk.score = 0 ↔ resOk.mismatch = 0) :=
  C1_score_formula envOk resOk (by rfl) (by decide) (by decide)

/-- C2: the tolerance gate is boundary-inclusive: when the comparison
completes, the case passes iff score is at most tolerance; in particular when
score equals tolerance the case passes, creating no artifact directory and
writing no files. -/
theorem C2_gate_boundary_inclusive (env : CaptureEnv)
    (category spec_name : String) (tolerance : ℚ) (res : ComparisonResult)
    (h : Baselines.compare env = .ok res) :
    ((test_image_baselines env category spec_name tolerance).passed = true ↔
      res.score ≤ tolerance) ∧
    (res.score = tolerance →
      test_image_baselines env category spec_name tolerance = .pass ∧
      (test_image_baselines env category spec_name tolerance).dirsCreated = [] ∧
      (test_image_baselines env category spec_name tolerance).filesWritten = []) := by
  have hT : test_image_baselines env category spec_name tolerance =
      if res.score > tolerance then
        .failTolerance (category, spec_name) artifactFiles
          ⟨tolerance, res.score, res.mismatch⟩
      else
        .pass := by
    unfold test_image_baselines
    rw [h]
  rw [hT]
  constructor
  · by_cases hgt : res.score > tolerance
    · rw [if_pos hgt]
      exact iff_of_false (by simp [Outcome.passed]) (not_le.mpr hgt)
    · rw [if_neg hgt]
      exact iff_of_true rfl (not_lt.mp hgt)
  · intro heq
    have hngt : ¬ res.score > tolerance := by
      rw [heq]
      exact lt_irrefl tolerance
    rw [if_neg hngt]
    exact ⟨rfl, rfl, rfl⟩

/-- C2 witness: score 0 against tolerance 0 passes on the boundary. -/
theorem C2_gate_boundary_inclusive_witness :
    ((test_image_baselines envOk "rect" "stacked_bar" 0).passed = true ↔
      resOk.score ≤ 0) ∧
    (resOk.score = 0 →
      test_image_baselines envOk "rect" "stacked_bar" 0 = .pass ∧
      (test_image_baselines envOk "rect" "stacked_bar" 0).dirsCreated = [] ∧
      (test_image_baselines envOk "rect" "stacked_bar" 0).filesWritten = []) :=
  C2_gate_boundary_inclusive envOk "rect" "stacked_bar" 0 resOk (by rfl)

/-- C3: a captured image whose every pixel is fully-opaque white
(255, 255, 255, 255) makes the capture fail with the blank-image failure and
never returns the image. -/
theorem C3_all_white_fails (img : Image)
    (h : ∀ x < img.width, ∀ y < img.height, img.px x y = whitePixel) :
    spec_to_image img = .error .blankImage := by
  unfold spec_to_image
  exact if_pos h

/-- C3 witness: the 2x2 all-white image. -/
theorem C3_all_white_fails_witness :
    spec_to_image whiteImg = .error .blankImage :=
  C3_all_white_fails whiteImg (by decide)

/-- C10: the blank-frame guard compares pixels against the 4-tuple
(255, 255, 255, 255) only, so a captured image (positive dimensions) none of
whose pixels is a 4-tuple -- e.g. an RGB-mode image -- is always returned as a
valid capture, even if all its pixels are white. -/
theorem C10_non_rgba_never_blank (img : Image)
    (hw : 0 < img.width) (hh : 0 < img.height)
    (h : ∀ x < img.width, ∀ y < img.height, (img.px x y).length ≠ 4) :
    spec_to_image img = .ok img := by
  unfold spec_to_image
  rw [if_neg]
  intro hall
  exact h 0 hw 0 hh (by rw [hall 0 hw 0 hh]; rfl)

/-- C10 witness: the all-white 1x1 RGB image is returned as valid. -/
theorem C10_non_rgba_never_blank_witness :
    spec_to_image rgbWhiteImg = .ok rgbWhiteImg :=
  C10_non_rgba_never_blank rgbWhiteImg (by decide) (by decide) (by decide)

/-- The `ComparisonResult` of a run on `envDiff`: every pixel differs. -/
def resDiff : ComparisonResult :=
  ⟨blackImg, clearWhiteImg, Image.new 1 1,
    mismatchCount blackImg clearWhiteImg (2/10),
    ((mismatchCount blackImg clearWhiteImg (2/10) : ℚ)) /
      ((blackImg.width : ℚ) * (blackImg.height : ℚ))⟩

/-- C4 counterexample: a failing case writes its images under the names
svg.png and avenger.png, not reference.png and candidate.png as the claim
states. -/
theorem C4_counterexample :
    test_image_baselines envDiff "rect" "stacked_bar" 0 =
      .failTolerance ("rect", "stacked_bar")
        ["svg.png", "avenger.png", "diff.png", "metrics.json"] ⟨0, 1, 1⟩ ∧
    "reference.png" ∉
      (test_image_baselines envDiff "rect" "stacked_bar" 0).filesWritten ∧
    "candidate.png" ∉
      (test_image_baselines envDiff "rect" "stacked_bar" 0).filesWritten := by
  have hT : test_image_baselines envDiff "rect" "stacked_bar" 0 =
      .failTolerance ("rect", "stacked_bar")
        ["svg.png", "avenger.png", "diff.png", "metrics.json"] ⟨0, 1, 1⟩ := by
    with_unfolding_all rfl
  refine ⟨hT, ?_, ?_⟩ <;> rw [hT] <;> decide

/-- C4 amended: for every case whose comparison completes with
score > tolerance, exactly one artifact directory <category>/<name> is
created, containing svg.png (the reference image), avenger.png (the candidate
image), diff.png and metrics.json whose content is the required score, the
score and the mismatch count; for every case with score ≤ tolerance no
artifact directory and no files are created. -/
theorem C4_artifacts (env : CaptureEnv) (category spec_name : String)
    (tolerance : ℚ) (res : ComparisonResult)
    (h : Baselines.compare env = .ok res) :
    (res.score > tolerance →
      test_image_baselines env category spec_name tolerance =
        .failTolerance (category, spec_name)
          ["svg.png", "avenger.png", "diff.png", "metrics.json"]
          ⟨tolerance, res.score, res.mismatch⟩) ∧
    (res.score ≤ tolerance →
      (test_image_baselines env category spec_name tolerance).dirsCreated = [] ∧
      (test_image_baselines env category spec_name tolerance).filesWritten = []) := by
  have hT : test_image_baselines env category spec_name tolerance =
      if res.score > tolerance then
        .failTolerance (category, spec_name) artifactFiles
          ⟨tolerance, res.score, res.mismatch⟩
      else
        .pass := by
    unfold test_image_baselines
    rw [h]
  rw [hT]
  constructor
  · intro hgt
    rw [if_pos hgt]
    rfl
  · intro hle
    rw [if_neg (not_lt.mpr hle)]
    exact ⟨rfl, rfl⟩

/-- C4 witness: the all-different 1x1 case at tolerance 0 writes exactly the
four artifact files into its directory. -/
theorem C4_artifacts_witness :
    test_image_baselines envDiff "rect" "stacked_bar" 0 =
      .failTolerance ("rect", "stacked_bar")
        ["svg.png", "avenger.png", "diff.png", "metrics.json"]
        ⟨0, resDiff.score, resDiff.mismatch⟩ :=
  (C4_artifacts envDiff "rect" "stacked_bar" 0 resDiff (by rfl)).1
    (of_decide_eq_true (by with_unfolding_all rfl))

/-- C5: a capture failure at any capture step (blank avenger frame, page
errors pending after the avenger capture, or blank svg frame) fails the case
as a capture failure, before any comparison outcome, and creates no artifact
directory and writes no files. -/
theorem C5_capture_error_short_circuit (env : CaptureEnv)
    (category spec_name : String) (tolerance : ℚ)
    (h : spec_to_image env.avengerRaw = .error .blankImage ∨
      env.errsDuringAvenger ≠ [] ∨
      spec_to_image env.svgRaw = .error .blankImage) :
    (test_image_baselines env category spec_name tolerance).isCaptureFailure
      = true ∧
    (test_image_baselines env category spec_name tolerance).dirsCreated = [] ∧
    (test_image_baselines env category spec_name tolerance).filesWritten = [] := by
  cases hc : Baselines.compare env with
  | error f =>
    have hT : test_image_baselines env category spec_name tolerance =
        .failCapture f := by
      unfold test_image_baselines
      rw [hc]
    rw [hT]
    exact ⟨rfl, rfl, rfl⟩
  | ok res =>
    obtain ⟨hA, hE, hS, -, -, -, -⟩ := compare_ok_inv env res hc
    rcases h with h1 | h2 | h3
    · rw [hA] at h1
      simp at h1
    · exact absurd hE h2
    · rw [hS] at h3
      simp at h3

/-- C5 witness: the blank avenger capture. -/
theorem C5_capture_error_short_circuit_witness :
    (test_image_baselines envBlank "rect" "heatmap" 1).isCaptureFailure
      = true ∧
    (test_image_baselines envBlank "rect" "heatmap" 1).dirsCreated = [] ∧
    (test_image_baselines envBlank "rect" "heatmap" 1).filesWritten = [] :=
  C5_capture_error_short_circuit envBlank "rect" "heatmap" 1 (Or.inl (by rfl))

/-- C6 counterexample: a page error that surfaces during the reference (svg)
capture is never checked: the case still completes with a score-based pass
outcome instead of a capture failure. -/
theorem C6_counterexample :
    envSvgErr.errsDuringSvg ≠ [] ∧
    test_image_baselines envSvgErr "rect" "heatmap" 1 = .pass := by
  exact ⟨by decide, by with_unfolding_all rfl⟩

/-- C6 amended: asynchronous page errors raise a capture failure only for the
candidate (avenger) capture: when the avenger capture returns an image and the
collected error list is nonempty, compare fails with those errors; and the
result of compare never depends on errors surfacing during the reference
(svg) capture. -/
theorem C6_amended (env : CaptureEnv) (av : Image) (es : List String)
    (hA : spec_to_image env.avengerRaw = .ok av)
    (hE : env.errsDuringAvenger ≠ []) :
    Baselines.compare env = .error (.pageErrors env.errsDuringAvenger) ∧
    Baselines.compare { env with errsDuringSvg := es } =
      Baselines.compare env := by
  refine ⟨?_, rfl⟩
  cases hl : env.errsDuringAvenger with
  | nil => exact absurd hl hE
  | cons e rest =>
    unfold compare
    rw [hA, hl]
    with_unfolding_all rfl

/-- C6 witness: an error during the avenger capture fails the comparison. -/
theorem C6_amended_witness :
    Baselines.compare envAvErr = .error (.pageErrors ["TypeError: y"]) ∧
    Baselines.compare { envAvErr with errsDuringSvg := ["e"] } =
      Baselines.compare envAvErr :=
  C6_amended envAvErr blackImg ["e"] (by rfl) (by decide)

/-- C7: the comparator yields a mismatch count exactly when both images have
equal width and equal height; any dimension mismatch raises the size
precondition error and never produces a count. -/
theorem C7_dimension_precondition (a b out : Image) (t : ℚ) :
    ((∃ n, pixelmatch a b out t = .ok n) ↔
      (a.width = b.width ∧ a.height = b.height)) ∧
    (¬(a.width = b.width ∧ a.height = b.height) →
      pixelmatch a b out t = .error .sizeMismatch) := by
  unfold pixelmatch
  by_cases hd : a.width = b.width ∧ a.height = b.height
  · rw [if_pos hd]
    exact ⟨⟨fun _ => hd, fun _ => ⟨_, rfl⟩⟩, fun hn => absurd hd hn⟩
  · rw [if_neg hd]
    refine ⟨⟨?_, fun hh => absurd hh hd⟩, fun _ => rfl⟩
    rintro ⟨n, hn⟩
    simp at hn

/-- C7 witness: the spec scenario, a 200x200 against a 100x100 image. -/
theorem C7_dimension_precondition_witness :
    pixelmatch img200 img100 (Image.new 200 200) (2/10) =
      .error .sizeMismatch :=
  (C7_dimension_precondition img200 img100 (Image.new 200 200) (2/10)).2
    (by decide)

/-- C8 counterexample: the session teardown sends no signal to the process
group, refuting the claim that the process group is signalled so children are
reaped. -/
theorem C8_counterexample :
    SignalTarget.processGroup ∉ page_url_teardown [] := by decide

/-- C8 amended: at session end the teardown sends exactly one termination
signal, addressed to the dev-server process only (not to its process group),
regardless of the case outcomes. -/
theorem C8_amended (outcomes : List Outcome) :
    page_url_teardown outcomes = [SignalTarget.process] := rfl

/-- C9 counterexample: the static case matrix contains the
(symbol, binned_scatter_path_star) pair twice, so a (category, name) pair
does not address at most one entry. -/
theorem C9_counterexample :
    casePairs.count ("symbol", "binned_scatter_path_star") = 2 := by decide

set_option maxRecDepth 8000 in
/-- C9 amended: every (category, name) pair occurs at most once in the case
matrix, except (symbol, binned_scatter_path_star) and
(symbol, scatter_transparent_stroke_star), each of which occurs exactly
twice. -/
theorem C9_amended :
    (∀ p ∈ casePairs,
      casePairs.count p ≤ 1 ∨
      p = ("symbol", "binned_scatter_path_star") ∨
      p = ("symbol", "scatter_transparent_stroke_star")) ∧
    casePairs.count ("symbol", "binned_scatter_path_star") = 2 ∧
    casePairs.count ("symbol", "scatter_transparent_stroke_star") = 2 := by
  decide

/-- C9 witness: the first matrix entry occurs exactly once. -/
theorem C9_amended_witness :
    casePairs.count ("rect", "stacked_bar") ≤ 1 ∨
    ("rect", "stacked_bar") = ("symbol", "binned_scatter_path_star") ∨
    ("rect", "stacked_bar") = ("symbol", "scatter_transparent_stroke_star") :=
  C9_amended.1 ("rect", "stacked_bar") (by decide)

end Baselines
